import Mathlib

/-
Verification of igdump (src/igdump.py): a shallow embedding of the
pagination engine, the enrichment fan-out, the sqlite sink and the CLI
plumbing, together with theorems settling the frozen claims.

Modelling conventions:
* Python exceptions are an explicit error type `PyErr`; fallible code
  returns `Except PyErr _`.
* JSON values decoded by `json.load` are the inductive `Json`.
* The network is an oracle `Remote`: a function from request parameters to
  the decoded response (or the raised error).  `make_request` plus
  `json.load` on one endpoint collapse to one oracle call; the status
  classification of `make_request` itself is embedded separately at the
  wire level (`urlopenResult`, `make_request`).
* Thread pools: requests submitted to a `ThreadPoolExecutor` are read back
  via `Future.result()` in submission order, so a run is a deterministic
  function of the per-request oracle; the pool's `max_workers > 0` check
  is kept (`ValueError` otherwise).
* Each model function that the claims observe returns, besides its value,
  the list of network calls it issues (`Call`), in issue order.
-/

namespace Igdump

/-- Python exceptions that igdump.py can raise, by site. -/
inductive PyErr where
  /-- `urllib.error.HTTPError` re-raised by `make_request` (4xx/5xx). -/
  | httpError (status : Nat) (body : String)
  /-- transport-level failure (`URLError`: DNS, timeout, reset). -/
  | transportError
  /-- `json.JSONDecodeError` from `json.load`. -/
  | jsonDecodeError
  /-- `KeyError` from indexing a dict with a missing key. -/
  | keyError (key : String)
  /-- `TypeError` (indexing a non-dict, summing a non-list, bad bind). -/
  | typeError
  /-- `AttributeError` (e.g. `int.upper()` on the default log level). -/
  | attributeError
  /-- `ValueError` (e.g. `ThreadPoolExecutor` with `max_workers <= 0`). -/
  | valueError (msg : String)
  /-- `sqlite3.OperationalError` (e.g. `CREATE TABLE` on existing table). -/
  | operationalError (msg : String)
  /-- `sqlite3.ProgrammingError` (binding-count mismatch). -/
  | programmingError (supplied expected : Nat)
deriving DecidableEq

/-- Decoded JSON values (`json.load` output). -/
inductive Json where
  | null
  | str (s : String)
  | int (n : Int)
  | arr (elems : List Json)
  | obj (fields : List (String × Json))

/-- Sequencing of fallible Python statements: an uncaught exception aborts. -/
def andThenE {α β : Type} (x : Except PyErr α) (f : α → Except PyErr β) :
    Except PyErr β :=
  match x with
  | .error e => .error e
  | .ok a => f a

/-- whether an `Except` is a raised exception. -/
def isErr {α : Type} : Except PyErr α → Bool
  | .error _ => true
  | .ok _ => false

/-- Python `obj[key]`: `KeyError` on a dict without the key, `TypeError`
on a non-dict. -/
def pyGetItem (j : Json) (key : String) : Except PyErr Json :=
  match j with
  | .obj fields =>
    match fields.lookup key with
    | some v => .ok v
    | none => .error (.keyError key)
  | _ => .error .typeError

/-- a JSON value used where the code needs an `int` without conversion
(e.g. as a `range` bound): anything else is a `TypeError`. -/
def expectInt : Json → Except PyErr Int
  | .int n => .ok n
  | _ => .error .typeError

/-- a JSON value used where the code needs a `list` (summing `["users"]`
lists with `+`): anything else is a `TypeError`. -/
def expectArr : Json → Except PyErr (List Json)
  | .arr xs => .ok xs
  | _ => .error .typeError

/-- decimal-digit accumulator for `pyIntOfString`. -/
def digitsToNatAux : List Char → Nat → Option Nat
  | [], acc => some acc
  | c :: cs, acc =>
    if c.isDigit then digitsToNatAux cs (acc * 10 + (c.toNat - 48))
    else none

/-- Python `int(...)` applied to a string: an optional sign followed by
at least one decimal digit; anything else raises `ValueError`. -/
def pyIntOfString (s : String) : Option Int :=
  match s.data with
  | [] => none
  | '-' :: c :: cs => (digitsToNatAux (c :: cs) 0).map (fun n => -(n : Int))
  | c :: cs => (digitsToNatAux (c :: cs) 0).map (fun n => (n : Int))

/-- Python `int(x)` on a decoded JSON value. -/
def pyInt : Json → Except PyErr Int
  | .int n => .ok n
  | .str s =>
    match pyIntOfString s with
    | some n => .ok n
    | none => .error (.valueError "invalid literal for int")
  | _ => .error .typeError

/-- Python `str(x)` on a decoded JSON value (containers only ever appear
here as placeholders; igdump only stringifies scalars). -/
def pyStr : Json → String
  | .null => "None"
  | .str s => s
  | .int n => toString n
  | .arr _ => "<list>"
  | .obj _ => "<dict>"

/-- `[f.result() for f in futures]` / summing generator results: read the
outcomes in submission order; the first raised exception propagates. -/
def collectE {α : Type} : List (Except PyErr α) → Except PyErr (List α)
  | [] => .ok []
  | r :: rs =>
    match r with
    | .error e => .error e
    | .ok a =>
      match collectE rs with
      | .error e => .error e
      | .ok bs => .ok (a :: bs)

/-- `Instagram.following_page_max` (line 38). -/
def following_page_max : Nat := 200

/-- Python `range(start, stop, step)` for a positive step. -/
def pyRange (start stop step : Nat) : List Nat :=
  if step = 0 then []
  else List.range' start ((stop - start + step - 1) / step) step

/-- the `slices` range of `get_following_all` (lines 142-146):
`range(200, count + 200, 200)` over the declared following count. -/
def slices (count : Int) : List Nat :=
  pyRange following_page_max (count + following_page_max).toNat
    following_page_max

/-- `self.threads or len(slices)` (line 149): Python truthiness of
`int | None`, fed to `ThreadPoolExecutor`. -/
def poolSize (threads : Option Int) (numSlices : Nat) : Int :=
  match threads with
  | none => numSlices
  | some t => if t = 0 then numSlices else t

/-- `user_id or self.user_id` (line 133): Python truthiness over
`int | None` values (`0` and `None` are falsy, both fields may be `None`). -/
def pyOrOpt (x y : Option Int) : Option Int :=
  match x with
  | none => y
  | some v => if v = 0 then y else some v

/-- one network request issued by the client, identified by its logical
endpoint and the parameters interpolated into it. -/
inductive Call where
  /-- `users/web_profile_info/?username=...` issued by `get_profile`. -/
  | profileReq (username : String)
  /-- `friendships/{user_id}/following/?count=200&max_id=...` issued by
  `get_following_slice`. -/
  | pageReq (user_id : Option Int) (max_id : Int)
deriving DecidableEq

/-- the follow-edge page request `get_following_slice` issues (lines
120-136): the path user is `user_id or self.user_id`. -/
def get_following_slice_call (self_user_id user_id : Option Int)
    (max_id : Int) : Call :=
  .pageReq (pyOrOpt user_id self_user_id) max_id

/-- the remote service as a deterministic oracle: for each request, the
decoded JSON payload `json.load` would produce, or the exception the
request raises (`HTTPError` re-raised by `make_request`, transport
failures, JSON decode failures). -/
structure Remote where
  /-- response payload of the profile-lookup endpoint for a username. -/
  profileResp : String → Except PyErr Json
  /-- response payload of the following-page endpoint for a path user id
  and a `max_id` offset. -/
  pageResp : Option Int → Int → Except PyErr Json

/-- `json.load(...)["data"]["user"]` of `get_profile` (lines 109-118),
applied to the payload (or raised error) of the profile endpoint. -/
def profile_of_payload (payload : Except PyErr Json) : Except PyErr Json :=
  andThenE payload fun j =>
    andThenE (pyGetItem j "data") fun d =>
      pyGetItem d "user"

/-- `get_profile` (lines 109-118) against the oracle. -/
def get_profile_pure (remote : Remote) (user_name : String) :
    Except PyErr Json :=
  profile_of_payload (remote.profileResp user_name)

/-- `user_profile["edge_follow"]["count"]` (line 144), used unconverted as
a `range` bound. -/
def extract_count (prof : Json) : Except PyErr Int :=
  andThenE (pyGetItem prof "edge_follow") fun ef =>
    andThenE (pyGetItem ef "count") expectInt

/-- `int(user_profile["id"])` (line 153), evaluated when the first page
request is submitted. -/
def extract_id (prof : Json) : Except PyErr Int :=
  andThenE (pyGetItem prof "id") pyInt

/-- `json.load(f.result())["users"]` for one page future (line 157): the
page payload must carry a `users` list. -/
def pageUsers (remote : Remote) (target : Option Int) (max_id : Int) :
    Except PyErr (List Json) :=
  andThenE (remote.pageResp target max_id) fun payload =>
    andThenE (pyGetItem payload "users") expectArr

/-- `get_following_all` (lines 138-157): profile lookup, offset range
`slices`, a `ThreadPoolExecutor(self.threads or len(slices))` (which
raises `ValueError` when its worker count is `<= 0`), one page request per
offset in order, and the in-order concatenation of the decoded `users`
lists.  Returns the network calls issued and the outcome. -/
def get_following_allT (remote : Remote) (selfUid : Option Int)
    (threads : Option Int) (user_name : String) :
    List Call × Except PyErr (List Json) :=
  match get_profile_pure remote user_name with
  | .error e => ([.profileReq user_name], .error e)
  | .ok prof =>
    match extract_count prof with
    | .error e => ([.profileReq user_name], .error e)
    | .ok cnt =>
      if poolSize threads (slices cnt).length ≤ 0 then
        ([.profileReq user_name],
         .error (.valueError "max_workers must be greater than 0"))
      else
        match slices cnt with
        | [] => ([.profileReq user_name], .ok [])
        | o :: os =>
          match extract_id prof with
          | .error e => ([.profileReq user_name], .error e)
          | .ok uid =>
            (.profileReq user_name ::
               (o :: os).map
                 (fun (m : Nat) =>
                   get_following_slice_call selfUid (some uid) (m : Int)),
             match collectE ((o :: os).map (fun (m : Nat) =>
                 pageUsers remote (pyOrOpt (some uid) selfUid) (m : Int)))
               with
             | .error e => .error e
             | .ok pagesU => .ok pagesU.flatten)

/-- state of the `following.sqlite3` connection: whether the `following`
table exists, the rows inserted so far (each a list of bound parameter
values), and whether `con.commit()` ran. -/
structure DbState where
  tableExists : Bool
  inserts : List (List Json)
  committed : Bool

/-- a fresh connection over a database whose `following` table may or may
not already exist. -/
def initDb (t : Bool) : DbState := ⟨t, [], false⟩

/-- `CREATE TABLE following (...)` (lines 201-211): raises
`sqlite3.OperationalError` when the table already exists. -/
def createTableFollowing (db : DbState) : DbState × Except PyErr Unit :=
  if db.tableExists then
    (db, .error (.operationalError "table following already exists"))
  else
    ({ db with tableExists := true }, .ok ())

/-- sqlite3 parameter binding of one item of the iterable given to
`executemany`: a `str` is a sequence of its one-character strings, a
`list` is itself the parameter sequence, scalars are not sequences and
fail. -/
def sqlParamsOfScalar : Json → Except PyErr (List Json)
  | .str s => .ok (s.data.map (fun c => Json.str (String.singleton c)))
  | .arr xs => .ok xs
  | _ => .error .typeError

/-- `cur.executemany("INSERT INTO following VALUES(?, ?, ?, ?, ?, ?)",
rows)` (line 231): binds each item of `rows` as one parameter row against
`nParams` placeholders, inserting incrementally; a binding-count mismatch
raises `sqlite3.ProgrammingError` and aborts. -/
def pyExecutemany (nParams : Nat) (rows : List Json) (db : DbState) :
    DbState × Except PyErr Unit :=
  match rows with
  | [] => (db, .ok ())
  | v :: rest =>
    match sqlParamsOfScalar v with
    | .error e => (db, .error e)
    | .ok ps =>
      if ps.length = nParams then
        pyExecutemany nParams rest { db with inserts := db.inserts ++ [ps] }
      else
        (db, .error (.programmingError ps.length nParams))

/-- the `data` tuple built from an enriched account (lines 221-228). -/
def extract_row (a : Json) : Except PyErr (List Json) :=
  andThenE (pyGetItem a "full_name") fun fn =>
    andThenE (pyGetItem a "username") fun un =>
      andThenE (pyGetItem a "biography") fun bio =>
        andThenE (pyGetItem a "edge_followed_by") fun fb =>
          andThenE (pyGetItem fb "count") fun fbc =>
            andThenE (pyGetItem a "edge_follow") fun fw =>
              andThenE (pyGetItem fw "count") fun fwc =>
                andThenE (pyGetItem a "category_enum") fun cat =>
                  .ok [fn, un, bio, fbc, fwc, cat]

/-- one iteration of the insert loop (lines 220-231): build `data` from
the account, then `cur.executemany(...)` over it — note the code passes
the flat 6-tuple itself as `executemany`'s iterable of parameter rows. -/
def insert_account (a : Json) (db : DbState) : DbState × Except PyErr Unit :=
  match extract_row a with
  | .error e => (db, .error e)
  | .ok fields => pyExecutemany 6 fields db

/-- the whole insert loop over the enriched accounts, in order; the first
raised exception aborts the remaining iterations. -/
def insert_all (accounts : List Json) (db : DbState) :
    DbState × Except PyErr Unit :=
  match accounts with
  | [] => (db, .ok ())
  | a :: rest =>
    match insert_account a db with
    | (db2, .error e) => (db2, .error e)
    | (db2, .ok _) => insert_all rest db2

/-- the submission loop of the enrichment stage (lines 215-218):
`profile["username"]` is read in the main thread as each future is
submitted, so a failing read aborts submission (earlier futures still
run); returns the usernames submitted so far and the raised error, if
any.  `urlencode` stringifies the username value. -/
def extract_usernames : List Json → List String × Option PyErr
  | [] => ([], none)
  | p :: ps =>
    match pyGetItem p "username" with
    | .error e => ([], some e)
    | .ok v =>
      match extract_usernames ps with
      | (ns, err) => (pyStr v :: ns, err)

/-- the enrichment fan-out plus table sink of `main` (lines 215-233): a
`ThreadPoolExecutor(args.threads)` (raising `ValueError` when the worker
count is `<= 0`), one `get_profile` per discovered account, a blocking
in-order read of every future, the insert loop, and a single final
`con.commit()`.  Returns the profile calls issued, the final connection
state and the outcome. -/
def enrich_and_storeT (remote : Remote) (threads : Int)
    (following : List Json) (db : DbState) :
    List Call × DbState × Except PyErr Unit :=
  if threads ≤ 0 then
    ([], db, .error (.valueError "max_workers must be greater than 0"))
  else
    match extract_usernames following with
    | (names, some e) => (names.map Call.profileReq, db, .error e)
    | (names, none) =>
      match collectE (names.map (fun n => get_profile_pure remote n)) with
      | .error e => (names.map Call.profileReq, db, .error e)
      | .ok accounts =>
        match insert_all accounts db with
        | (db2, .error e) => (names.map Call.profileReq, db2, .error e)
        | (db2, .ok _) =>
          (names.map Call.profileReq, { db2 with committed := true },
           .ok ())

/-- `--log-level`'s value: `argparse`'s default is the *integer*
`logging.INFO`, a string arrives only from the command line. -/
inductive LogLevelArg where
  | intDefault
  | strArg (s : String)
deriving DecidableEq

/-- attribute names of the `logging` module naming levels. -/
def knownLevels : List String :=
  ["CRITICAL", "FATAL", "ERROR", "WARNING", "WARN", "INFO", "DEBUG",
   "NOTSET"]

/-- Python `str.upper()` (ASCII suffices for level names). -/
def pyUpper (s : String) : String :=
  String.mk (s.data.map Char.toUpper)

/-- `logging.basicConfig(level=getattr(logging, args.log_level.upper()))`
(line 195): the integer default has no `.upper()` (`AttributeError`); an
unknown level name fails `getattr`. -/
def configure_logging : LogLevelArg → Except PyErr Unit
  | .intDefault => .error .attributeError
  | .strArg s =>
    if knownLevels.contains (pyUpper s) then .ok ()
    else .error .attributeError

/-- the parsed `argparse.Namespace` fields `main` reads. -/
structure Args where
  session_id : Option String
  user_id : Option Int
  user_name : Option String
  threads : Int
  log_level : LogLevelArg

/-- command-line option values (a `none` flag was not passed). -/
structure Cli where
  session_id : Option String
  user_id : Option Int
  user_name : Option String
  threads : Option Int
  log_level : Option String

/-- environment-variable fallbacks read by `parse_args`. -/
structure Env where
  ig_session_id : Option String
  ig_user_id : Option Int
  ig_user_name : Option String
  igdump_num_threads : Option Int

/-- `parse_args` (lines 160-190): each flag defaults to its environment
variable; `--threads` further falls back to `cpu_count()`; none of the
flags is required, so missing credentials stay `None`; `--log-level`
defaults to the integer `logging.INFO`. -/
def parse_args (cli : Cli) (env : Env) (cpuCount : Int) : Args where
  session_id :=
    match cli.session_id with
    | some s => some s
    | none => env.ig_session_id
  user_id :=
    match cli.user_id with
    | some i => some i
    | none => env.ig_user_id
  user_name :=
    match cli.user_name with
    | some s => some s
    | none => env.ig_user_name
  threads :=
    match cli.threads with
    | some t => t
    | none =>
      match env.igdump_num_threads with
      | some t => t
      | none => cpuCount
  log_level :=
    match cli.log_level with
    | some s => .strArg s
    | none => .intDefault

/-- observable outcome of one `main` run: network calls in issue order,
final database-connection state, and the run's termination. -/
structure RunResult where
  networkCalls : List Call
  db : DbState
  outcome : Except PyErr Unit

/-- `main` (lines 193-233): configure logging, build the client (note:
*without* a thread count, so the paginator's pool is sized by the slice
count, and with `args.user_id` as the client id), connect and `CREATE
TABLE following`, fetch the following list for the hardcoded username
`"gkze"` (line 213), then enrich and store. -/
def main_run (args : Args) (tableExists0 : Bool) (remote : Remote) :
    RunResult :=
  match configure_logging args.log_level with
  | .error e => ⟨[], initDb tableExists0, .error e⟩
  | .ok _ =>
    match createTableFollowing (initDb tableExists0) with
    | (db1, .error e) => ⟨[], db1, .error e⟩
    | (db1, .ok _) =>
      match get_following_allT remote args.user_id none "gkze" with
      | (calls1, .error e) => ⟨calls1, db1, .error e⟩
      | (calls1, .ok following_all) =>
        match enrich_and_storeT remote args.threads following_all db1 with
        | (calls2, db2, out) => ⟨calls1 ++ calls2, db2, out⟩

/-- `main(argv[1:])` from the command line: parse, then run. -/
def full_run (cli : Cli) (env : Env) (cpuCount : Int) (tableExists0 : Bool)
    (remote : Remote) : RunResult :=
  main_run (parse_args cli env cpuCount) tableExists0 remote

/-- `urlopen(...)` inside `make_request` (line 91) against a remote that
answers with the given wire status and body: `urllib` raises `HTTPError`
(carrying status and body) for every 4xx/5xx response and returns the
response otherwise. -/
def urlopenResult (status : Nat) (body : String) :
    Except PyErr (Nat × String) :=
  if 400 ≤ status then .error (.httpError status body)
  else .ok (status, body)

/-- `make_request` (lines 73-107): one `urlopen` call; an `HTTPError` is
logged and re-raised (no retry); an in-hand response with status `>= 400`
would be logged and dropped (`return None`, lines 97-101) — unreachable
under `urlopen`, which raises instead, exactly as in the source. -/
def make_request (status : Nat) (body : String) :
    Except PyErr (Option (Nat × String)) :=
  match urlopenResult status body with
  | .error e => .error e
  | .ok resp =>
    if 400 ≤ resp.1 then .ok none
    else .ok (some resp)

/-- `get_profile` (lines 109-118) at the wire level: the response of one
`make_request`, decoded by the given `json.load` behaviour, then indexed
by `["data"]["user"]`; if `make_request` had returned `None`,
`json.load(None)` would raise `AttributeError`. -/
def get_profile_http (status : Nat) (body : String)
    (decode : String → Except PyErr Json) : Except PyErr Json :=
  match make_request status body with
  | .error e => .error e
  | .ok none => .error .attributeError
  | .ok (some resp) => profile_of_payload (decode resp.2)

/- ------------------------------------------------------------------
Concrete fixtures (scripted remotes and inputs used to instantiate the
claims on closed data)
------------------------------------------------------------------ -/

/-- a profile payload `data.user` wrapper. -/
def mkProfilePayload (u : Json) : Json :=
  Json.obj [("data", Json.obj [("user", u)])]

/-- a subject whose declared following total is 400, numeric id 9. -/
def userC1 : Json :=
  Json.obj [("edge_follow", Json.obj [("count", Json.int 400)]),
    ("id", Json.str "9")]

/-- remote scripting `userC1` and empty pages everywhere. -/
def remoteC1 : Remote :=
  ⟨fun _ => .ok (mkProfilePayload userC1),
   fun _ _ => .ok (Json.obj [("users", Json.arr [])])⟩

/-- an enrichment batch of two accounts, `bob` then `alice`. -/
def followingC2 : List Json :=
  [Json.obj [("username", Json.str "bob")],
   Json.obj [("username", Json.str "alice")]]

/-- remote whose profile lookup fails for `alice` (HTTP 429) and succeeds
for everyone else. -/
def remoteC2 : Remote :=
  ⟨fun n =>
     if n = "alice" then .error (.httpError 429 "rate limited")
     else .ok (mkProfilePayload (Json.obj [("full_name", Json.str "Bob")])),
   fun _ _ => .error .transportError⟩

/-- a connection that already created the `following` table, no rows. -/
def dbC2 : DbState := ⟨true, [], false⟩

/-- a subject whose declared following total is 250, numeric id 77. -/
def userC3 : Json :=
  Json.obj [("edge_follow", Json.obj [("count", Json.int 250)]),
    ("id", Json.str "77")]

/-- remote scripting `userC3` with two pages: `[a, b]` at offset 200 and
`[a]` (a duplicate) at offset 400. -/
def remoteC3 : Remote :=
  ⟨fun _ => .ok (mkProfilePayload userC3),
   fun _ m =>
     if m = 200 then
       .ok (Json.obj [("users", Json.arr [Json.str "a", Json.str "b"])])
     else if m = 400 then
       .ok (Json.obj [("users", Json.arr [Json.str "a"])])
     else .error .transportError⟩

/-- the per-offset `users` lists `remoteC3` serves. -/
def pagesC3 : Nat → List Json := fun o =>
  if o = 200 then [Json.str "a", Json.str "b"]
  else if o = 400 then [Json.str "a"]
  else []

/-- an enriched account whose full name has three characters. -/
def accountC4 : Json :=
  Json.obj
    [("full_name", Json.str "Ada"), ("username", Json.str "ada"),
     ("biography", Json.str "hi"),
     ("edge_followed_by", Json.obj [("count", Json.int 10)]),
     ("edge_follow", Json.obj [("count", Json.int 5)]),
     ("category_enum", Json.null)]

/-- a connection with the `following` table created and no rows. -/
def dbC4 : DbState := ⟨true, [], false⟩

/-- arguments with every credential present and a valid log level. -/
def argsC5 : Args := ⟨some "sess", some 7, some "alice", 4, .strArg "info"⟩

/-- remote that fails every request at the transport level. -/
def remoteC5 : Remote :=
  ⟨fun _ => .error .transportError, fun _ _ => .error .transportError⟩

/-- remote answering every profile lookup with HTTP 404. -/
def remoteC6 : Remote :=
  ⟨fun _ => .error (.httpError 404 "not found"),
   fun _ _ => .error .transportError⟩

/-- arguments with a valid log level (credentials partly present). -/
def argsC6 : Args := ⟨none, some 3, none, 2, .strArg "info"⟩

/-- a command line missing both credentials (only `--user-name` and
`--log-level` are passed). -/
def cliC7 : Cli := ⟨none, none, some "alice", none, some "info"⟩

/-- an environment with none of the fallback variables set. -/
def envC7 : Env := ⟨none, none, none, none⟩

/-- remote rejecting every request as unauthenticated (HTTP 403). -/
def remoteC7 : Remote :=
  ⟨fun _ => .error (.httpError 403 "login_required"),
   fun _ _ => .error (.httpError 403 "login_required")⟩

/-- a command line naming `--user-name alice` with full credentials. -/
def cliC8 : Cli := ⟨some "sess", some 7, some "alice", some 2, some "info"⟩

/-- an environment with none of the fallback variables set. -/
def envC8 : Env := ⟨none, none, none, none⟩

/-- remote answering every profile lookup with HTTP 404. -/
def remoteC8 : Remote :=
  ⟨fun _ => .error (.httpError 404 "user not found"),
   fun _ _ => .error .transportError⟩

/-- a subject whose declared following total is 0, numeric id 9. -/
def userC10 : Json :=
  Json.obj [("edge_follow", Json.obj [("count", Json.int 0)]),
    ("id", Json.str "9")]

/-- remote scripting `userC10`. -/
def remoteC10 : Remote :=
  ⟨fun _ => .ok (mkProfilePayload userC10),
   fun _ _ => .error .transportError⟩

/- ------------------------------------------------------------------
Helper lemmas
------------------------------------------------------------------ -/

@[simp]
theorem andThenE_ok {α β : Type} (a : α) (f : α → Except PyErr β) :
    andThenE (.ok a) f = f a := rfl

@[simp]
theorem andThenE_error {α β : Type} (e : PyErr) (f : α → Except PyErr β) :
    andThenE (.error e) f = .error e := rfl

/-- a `range'` with step unfolds to a scaled `range`. -/
theorem range'_eq_map_range_mul (step : Nat) :
    ∀ n s : Nat,
      List.range' s n step = (List.range n).map (fun i => s + step * i) := by
  intro n
  induction n with
  | zero => intro s; simp
  | succ k ih =>
    intro s
    rw [List.range'_succ, List.range_succ_eq_map, List.map_cons,
      List.map_map]
    have h0 : s + step * 0 = s := by ring
    have hf : ((fun i => s + step * i) ∘ Nat.succ) =
        (fun i => (s + step) + step * i) := by
      funext i
      simp [Function.comp, Nat.succ_eq_add_one]
      ring
    rw [h0, hf, ih (s + step)]

/-- when every mapped element succeeds, reading futures back in order
succeeds with the in-order values. -/
theorem collectE_map_ok {α β : Type} (g : α → Except PyErr β) (f : α → β) :
    ∀ l : List α, (∀ x ∈ l, g x = .ok (f x)) →
      collectE (l.map g) = .ok (l.map f) := by
  intro l
  induction l with
  | nil => intro _; rfl
  | cons a t ih =>
    intro h
    have ha := h a (List.mem_cons_self a t)
    have ht := ih (fun x hx => h x (List.mem_cons_of_mem a hx))
    simp [collectE, ha, ht]

/-- if any mapped element fails, reading futures back in order raises. -/
theorem collectE_map_error {α β : Type} (g : α → Except PyErr β) :
    ∀ l : List α, (∃ x ∈ l, isErr (g x) = true) →
      ∃ e, collectE (l.map g) = .error e := by
  intro l
  induction l with
  | nil =>
    rintro ⟨x, hx, _⟩
    simp at hx
  | cons a t ih =>
    rintro ⟨x, hx, hxe⟩
    cases hga : g a with
    | error e => exact ⟨e, by simp [collectE, hga]⟩
    | ok b =>
      have hxt : x ∈ t := by
        rcases List.mem_cons.mp hx with h | h
        · subst h
          rw [hga] at hxe
          simp [isErr] at hxe
        · exact h
      obtain ⟨e, he⟩ := ih ⟨x, hxt, hxe⟩
      refine ⟨e, ?_⟩
      simp [collectE, hga, he]

/-- whatever the oracle answers, `get_following_all` opens with exactly
one profile-lookup request. -/
theorem get_following_allT_calls (remote : Remote)
    (selfUid threads : Option Int) (name : String) :
    ∃ rest, (get_following_allT remote selfUid threads name).1 =
      Call.profileReq name :: rest := by
  rcases hp : get_profile_pure remote name with e | prof
  · exact ⟨[], by simp [get_following_allT, hp]⟩
  rcases hc : extract_count prof with e | cnt
  · exact ⟨[], by simp [get_following_allT, hp, hc]⟩
  by_cases hpool : poolSize threads (slices cnt).length ≤ 0
  · exact ⟨[], by simp [get_following_allT, hp, hc, if_pos hpool]⟩
  rcases hs : slices cnt with _ | ⟨o, os⟩
  · refine ⟨[], ?_⟩
    simp only [get_following_allT, hp, hc, hs]
    split <;> rfl
  rcases hid : extract_id prof with e | uid
  · refine ⟨[], ?_⟩
    simp only [get_following_allT, hp, hc, hs, hid]
    split <;> rfl
  refine ⟨(o :: os).map
      (fun (m : Nat) => get_following_slice_call selfUid (some uid) (m : Int)),
    ?_⟩
  rw [hs] at hpool
  simp only [get_following_allT, hp, hc, hs, hid, if_neg hpool]

/-- on a fresh database with logging configured, the first network call of
`main` is always the profile lookup for the hardcoded `"gkze"`. -/
theorem main_run_calls_head (args : Args) (remote : Remote)
    (hlog : configure_logging args.log_level = .ok ()) :
    (main_run args false remote).networkCalls.head? =
      some (Call.profileReq "gkze") := by
  obtain ⟨rest, hrest⟩ :=
    get_following_allT_calls remote args.user_id none "gkze"
  have hct : createTableFollowing (initDb false) =
      (⟨true, [], false⟩, .ok ()) := rfl
  rcases hga : get_following_allT remote args.user_id none "gkze" with
    ⟨calls1, r⟩
  rw [hga] at hrest
  simp only at hrest
  cases r with
  | error e =>
    simp only [main_run, hlog, hct, hga, hrest]
    rfl
  | ok following_all =>
    rcases henr : enrich_and_storeT remote args.threads following_all
        ⟨true, [], false⟩ with ⟨calls2, db2, out⟩
    simp only [main_run, hlog, hct, hga, henr, hrest]
    rfl

/- ------------------------------------------------------------------
Claim theorems
------------------------------------------------------------------ -/

/-- C1 (counterexample): the claimed offset schedule is wrong.  With
`declared_total = 0` the code issues *no* page request at all (the claim
predicts one, at offset 200), and with `declared_total = 400` it issues
two page requests at offsets 200 and 400 (the claim predicts three, up to
and including 600): the `range` stop bound `declared_total + page_size` is
exclusive.  `remoteC1` scripts a profile with declared total 400 and the
trace shows exactly the two page requests. -/
theorem C1_counterexample :
    slices 0 = [] ∧ slices 0 ≠ [200] ∧
    slices 400 = [200, 400] ∧ slices 400 ≠ [200, 400, 600] ∧
    (get_following_allT remoteC1 (some 1) (some 1) "u400").1 =
      [Call.profileReq "u400", Call.pageReq (some 9) 200,
       Call.pageReq (some 9) 400] :=
  ⟨rfl, by decide, rfl, by decide, rfl⟩

/-- C1 (amended, proved): for every `declared_total ≥ 0` with
`page_size = 200`, the paginator's offset schedule is exactly
`page_size, 2*page_size, …, ceil(declared_total / page_size) * page_size`
— `ceil(declared_total / page_size)` page requests, every offset strictly
below `declared_total + page_size`; for `declared_total = 0` the schedule
is empty. -/
theorem C1_theorem (total : Nat) :
    slices (total : Int) =
      (List.range ((total + 199) / 200)).map (fun i => (i + 1) * 200) ∧
    (slices (total : Int)).length = (total + 199) / 200 := by
  have htn : ((total : Int) + ((200 : Nat) : Int)).toNat = total + 200 := by
    omega
  have harg : total + 200 - 200 + 200 - 1 = total + 199 := by omega
  have hmain : slices (total : Int) =
      (List.range ((total + 199) / 200)).map (fun i => (i + 1) * 200) := by
    rw [slices, following_page_max, htn, pyRange, if_neg (by decide), harg,
      range'_eq_map_range_mul]
    have hf : (fun i => 200 + 200 * i) = (fun i => (i + 1) * 200) := by
      funext i
      ring
    rw [hf]
  refine ⟨hmain, ?_⟩
  rw [hmain]
  simp

/-- C9 (confirmed): `get_following_slice` targets `user_id or
self.user_id`: a `0` (or `None`) argument is replaced by the client's own
configured user id, while any non-zero argument is used as given. -/
theorem C9_theorem (selfId : Option Int) (m : Int) :
    get_following_slice_call selfId (some 0) m = Call.pageReq selfId m ∧
    get_following_slice_call selfId none m = Call.pageReq selfId m ∧
    ∀ u : Int, u ≠ 0 →
      get_following_slice_call selfId (some u) m = Call.pageReq (some u) m := by
  refine ⟨rfl, rfl, ?_⟩
  intro u hu
  simp [get_following_slice_call, pyOrOpt, hu]

/-- C9 witness: with the client configured as user 42, a slice request for
user 0 goes to 42 and a request for user 7 goes to 7. -/
theorem C9_witness :
    get_following_slice_call (some 42) (some 0) 200 =
      Call.pageReq (some 42) 200 ∧
    get_following_slice_call (some 42) (some 7) 200 =
      Call.pageReq (some 7) 200 :=
  ⟨(C9_theorem (some 42) 200).1, (C9_theorem (some 42) 200).2.2 7 (by decide)⟩

/-- C10 (confirmed): when the profile's declared following total is 0 the
offset schedule is empty, and with no configured thread count (`None` or
`0`) the pool size `self.threads or len(slices)` is 0, so
`ThreadPoolExecutor` raises `ValueError` instead of the call returning the
empty list. -/
theorem C10_theorem (remote : Remote) (selfUid : Option Int)
    (threads : Option Int) (name : String) (prof : Json)
    (hprof : get_profile_pure remote name = .ok prof)
    (hcnt : extract_count prof = .ok 0)
    (hth : threads = none ∨ threads = some 0) :
    get_following_allT remote selfUid threads name =
      ([Call.profileReq name],
       .error (.valueError "max_workers must be greater than 0")) := by
  have hs : slices 0 = [] := rfl
  rcases hth with h | h <;> subst h <;>
    simp [get_following_allT, hprof, hcnt, hs, poolSize]

/-- C2 (confirmed): every enrichment future is read back (`f.result()`)
before the insert loop starts, so one failed profile lookup makes the
whole batch raise with the connection state untouched: no `INSERT` was
issued and no commit performed. -/
theorem C2_theorem (remote : Remote) (threads : Int) (following : List Json)
    (db : DbState) (names : List String)
    (hth : 0 < threads)
    (hnames : extract_usernames following = (names, none))
    (hfail : ∃ n ∈ names, isErr (get_profile_pure remote n) = true) :
    ∃ e, enrich_and_storeT remote threads following db =
      (names.map Call.profileReq, db, .error e) := by
  obtain ⟨e, he⟩ :=
    collectE_map_error (fun n => get_profile_pure remote n) names hfail
  refine ⟨e, ?_⟩
  have hnth : ¬ threads ≤ 0 := by omega
  simp only [enrich_and_storeT, if_neg hnth, hnames, he]

/-- C2 witness: with `alice`'s lookup failing (HTTP 429) in a two-account
batch, the run errors with the database exactly as it was: zero inserts,
no commit. -/
theorem C2_witness :
    (0 : Int) < 4 ∧
    extract_usernames followingC2 = (["bob", "alice"], none) ∧
    (∃ n ∈ ["bob", "alice"], isErr (get_profile_pure remoteC2 n) = true) ∧
    ∃ e, enrich_and_storeT remoteC2 4 followingC2 dbC2 =
      (["bob", "alice"].map Call.profileReq, dbC2, .error e) :=
  ⟨by decide, rfl, ⟨"alice", by decide, rfl⟩,
   C2_theorem remoteC2 4 followingC2 dbC2 ["bob", "alice"] (by decide) rfl
     ⟨"alice", by decide, rfl⟩⟩

/-- C3 (confirmed): on a successful run, `get_following_all` issues the
page requests in ascending offset order and returns exactly the in-order
concatenation of the per-page `users` lists — no sorting, no
deduplication (the result is the flatten of the per-offset lists, with
multiplicity preserved).  Concurrency is modelled by the per-offset
oracle: futures are read back in submission (ascending-offset) order. -/
theorem C3_theorem (remote : Remote) (selfUid threads : Option Int)
    (name : String) (prof : Json) (cnt uid : Int) (pages : Nat → List Json)
    (hprof : get_profile_pure remote name = .ok prof)
    (hcnt : extract_count prof = .ok cnt)
    (hid : extract_id prof = .ok uid)
    (hpool : 0 < poolSize threads (slices cnt).length)
    (hpages : ∀ o ∈ slices cnt,
      pageUsers remote (pyOrOpt (some uid) selfUid) (o : Int) =
        .ok (pages o)) :
    get_following_allT remote selfUid threads name =
      (Call.profileReq name ::
         (slices cnt).map
           (fun (o : Nat) =>
             get_following_slice_call selfUid (some uid) (o : Int)),
       .ok (((slices cnt).map pages).flatten)) := by
  have hnp : ¬ poolSize threads (slices cnt).length ≤ 0 := by omega
  rcases hs : slices cnt with _ | ⟨o, os⟩
  · rw [hs] at hnp
    simp only [get_following_allT, hprof, hcnt, hs, if_neg hnp]
    simp
  · rw [hs] at hnp
    rw [hs] at hpages
    have hcoll :
        collectE ((o :: os).map (fun (m : Nat) =>
            pageUsers remote (pyOrOpt (some uid) selfUid) (m : Int))) =
          .ok ((o :: os).map pages) :=
      collectE_map_ok _ pages (o :: os) hpages
    simp only [get_following_allT, hprof, hcnt, hs, if_neg hnp, hid, hcoll]

/-- C3 witness: declared total 250 gives offsets `[200, 400]`; the pages
`[a, b]` and `[a]` come back concatenated in offset order with the
duplicate `a` preserved. -/
theorem C3_witness :
    get_profile_pure remoteC3 "carol" = .ok userC3 ∧
    extract_count userC3 = .ok 250 ∧
    extract_id userC3 = .ok 77 ∧
    0 < poolSize (some 2) (slices 250).length ∧
    (∀ o ∈ slices 250,
      pageUsers remoteC3 (pyOrOpt (some 77) (some 5)) (o : Int) =
        .ok (pagesC3 o)) ∧
    get_following_allT remoteC3 (some 5) (some 2) "carol" =
      (Call.profileReq "carol" ::
         (slices 250).map
           (fun (o : Nat) =>
             get_following_slice_call (some 5) (some 77) (o : Int)),
       .ok (((slices 250).map pagesC3).flatten)) := by
  have hp : ∀ o ∈ slices 250,
      pageUsers remoteC3 (pyOrOpt (some 77) (some 5)) (o : Int) =
        .ok (pagesC3 o) := by
    intro o ho
    have h250 : slices 250 = [200, 400] := rfl
    rw [h250] at ho
    simp only [List.mem_cons, List.not_mem_nil, or_false] at ho
    rcases ho with h | h <;> subst h <;> rfl
  exact ⟨rfl, rfl, rfl, by decide, hp,
    C3_theorem remoteC3 (some 5) (some 2) "carol" userC3 250 77 pagesC3
      rfl rfl rfl (by decide) hp⟩

/-- C4 (code bug, evaluated at the failing input): the insert step passes
the flat 6-tuple itself to `cursor.executemany`, which iterates the
scalar fields as parameter rows; the first field, the 3-character name
`"Ada"`, supplies 3 bindings for 6 placeholders, so the insert raises
`sqlite3.ProgrammingError` and writes no row — not one 6-column row per
profile as claimed. -/
theorem C4_theorem :
    insert_account accountC4 dbC4 = (dbC4, .error (.programmingError 3 6)) ∧
    (insert_account accountC4 dbC4).1.inserts = [] ∧
    (insert_account accountC4 dbC4).1.committed = false :=
  ⟨rfl, rfl, rfl⟩

/-- C5 (confirmed): with logging configured, running `main` against a
database that already has a `following` table fails at `CREATE TABLE`
with `sqlite3.OperationalError` (the spec's `StorageError`), with no
insert issued — indeed no network call either. -/
theorem C5_theorem (args : Args) (remote : Remote)
    (hlog : configure_logging args.log_level = .ok ()) :
    main_run args true remote =
      ⟨[], initDb true,
       .error (.operationalError "table following already exists")⟩ := by
  have hct : createTableFollowing (initDb true) =
      (initDb true,
       .error (.operationalError "table following already exists")) := rfl
  simp only [main_run, hlog, hct]

/-- C5 witness: a fully credentialed run over a database whose
`following` table already exists stops at table creation. -/
theorem C5_witness :
    configure_logging argsC5.log_level = .ok () ∧
    main_run argsC5 true remoteC5 =
      ⟨[], initDb true,
       .error (.operationalError "table following already exists")⟩ :=
  ⟨rfl, C5_theorem argsC5 remoteC5 rfl⟩

/-- C6 (confirmed): for a 4xx/5xx wire status, `urlopen` raises
`HTTPError` and `make_request` re-raises it unchanged — carrying status
and body, with its single request and no retry — and when the run's
initial profile lookup fails that way the same error is the run's
top-level outcome (nothing in `main` catches it); for a 2xx/3xx status
`make_request` hands the response on, and `get_profile` proceeds to
JSON-decode its body. -/
theorem C6_theorem (status : Nat) (body : String) :
    (400 ≤ status →
      make_request status body = .error (.httpError status body) ∧
      ∀ (remote : Remote) (args : Args),
        configure_logging args.log_level = .ok () →
        remote.profileResp "gkze" = .error (.httpError status body) →
        (main_run args false remote).outcome =
          .error (.httpError status body)) ∧
    (status < 400 →
      make_request status body = .ok (some (status, body)) ∧
      ∀ decode : String → Except PyErr Json,
        get_profile_http status body decode =
          profile_of_payload (decode body)) := by
  constructor
  · intro h4
    constructor
    · simp [make_request, urlopenResult, h4]
    · intro remote args hlog hresp
      have hct : createTableFollowing (initDb false) =
          (⟨true, [], false⟩, .ok ()) := rfl
      have hga : get_following_allT remote args.user_id none "gkze" =
          ([Call.profileReq "gkze"], .error (.httpError status body)) := by
        simp [get_following_allT, get_profile_pure, profile_of_payload,
          hresp]
      simp only [main_run, hlog, hct, hga]
  · intro h4
    have hn : ¬ 400 ≤ status := by omega
    constructor
    · simp [make_request, urlopenResult, hn]
    · intro decode
      simp [get_profile_http, make_request, urlopenResult, hn]

/-- C6 witness: a 404 is re-raised with status and body and becomes the
run outcome; a 200 passes the response on for decoding. -/
theorem C6_witness :
    (400 ≤ 404 ∧
     make_request 404 "not found" = .error (.httpError 404 "not found") ∧
     configure_logging argsC6.log_level = .ok () ∧
     remoteC6.profileResp "gkze" = .error (.httpError 404 "not found") ∧
     (main_run argsC6 false remoteC6).outcome =
       .error (.httpError 404 "not found")) ∧
    (200 < 400 ∧
     make_request 200 "payload" = .ok (some (200, "payload"))) := by
  refine ⟨⟨by decide, ?_, rfl, rfl, ?_⟩, by decide, ?_⟩
  · exact ((C6_theorem 404 "not found").1 (by decide)).1
  · exact ((C6_theorem 404 "not found").1 (by decide)).2 remoteC6 argsC6
      rfl rfl
  · exact ((C6_theorem 200 "payload").2 (by decide)).1

/-- C7 (counterexample): with both credentials missing from command line
and environment, `parse_args` leaves them `None` and the run does *not*
fail before the network: the profile lookup request is still issued (the
claim says the run fails before any network request). -/
theorem C7_counterexample :
    (parse_args cliC7 envC7 4).session_id = none ∧
    (parse_args cliC7 envC7 4).user_id = none ∧
    (full_run cliC7 envC7 4 false remoteC7).networkCalls =
      [Call.profileReq "gkze"] ∧
    (full_run cliC7 envC7 4 false remoteC7).networkCalls ≠ [] :=
  ⟨rfl, rfl, rfl, by decide⟩

/-- C7 (amended, proved): when the session id and user id are missing
from both the command line and the environment (with a valid
`--log-level` and a fresh database), the run does not fail early:
`parse_args` resolves both credentials to `None` without validation and
the first network request — the initial profile lookup — is issued
regardless of how the remote then responds. -/
theorem C7_theorem (remote : Remote) (un eun : Option String)
    (th eth : Option Int) (cpu : Int) :
    (parse_args ⟨none, none, un, th, some "info"⟩ ⟨none, none, eun, eth⟩
        cpu).session_id = none ∧
    (parse_args ⟨none, none, un, th, some "info"⟩ ⟨none, none, eun, eth⟩
        cpu).user_id = none ∧
    (full_run ⟨none, none, un, th, some "info"⟩ ⟨none, none, eun, eth⟩ cpu
        false remote).networkCalls.head? =
      some (Call.profileReq "gkze") := by
  refine ⟨rfl, rfl, ?_⟩
  exact main_run_calls_head
    (parse_args ⟨none, none, un, th, some "info"⟩ ⟨none, none, eun, eth⟩ cpu)
    remote rfl

/-- C8 (code bug, evaluated at the failing input): `--user-name alice` is
parsed, but `main` passes the hardcoded literal `"gkze"` (line 213) to
the initial profile lookup, so the run retrieves `gkze`'s following list,
not `alice`'s. -/
theorem C8_theorem :
    (parse_args cliC8 envC8 4).user_name = some "alice" ∧
    (full_run cliC8 envC8 4 false remoteC8).networkCalls =
      [Call.profileReq "gkze"] ∧
    Call.profileReq "gkze" ≠ Call.profileReq "alice" :=
  ⟨rfl, rfl, by decide⟩

/-- C10 witness: a scripted profile with declared total 0 and an
unconfigured thread count makes `get_following_all` raise the pool's
`ValueError`. -/
theorem C10_witness :
    get_profile_pure remoteC10 "dana" = .ok userC10 ∧
    extract_count userC10 = .ok 0 ∧
    ((none : Option Int) = none ∨ (none : Option Int) = some 0) ∧
    get_following_allT remoteC10 (some 5) none "dana" =
      ([Call.profileReq "dana"],
       .error (.valueError "max_workers must be greater than 0")) :=
  ⟨rfl, rfl, Or.inl rfl,
   C10_theorem remoteC10 (some 5) none "dana" userC10 rfl rfl (Or.inl rfl)⟩

end Igdump
